/-
Verification of the windowed health-analytics engine of
`print-nanny-dataflow` against its specification.

The Python sources embedded here are:
  * `print_nanny_dataflow/metrics/area_of_interest.py`
      (`calc_percent_intersection`, `filter_box_annotations`)
  * `print_nanny_dataflow/transforms/health.py`
      (`health_score_trend_polynomial_v1`, `ExplodeWindowedHealthRecord`,
       `SortWindowedHealthDataframe`, `CreateVideoRenderMessage`,
       `MonitorHealthStateful`)

Floating-point quantities are embedded as exact rationals; machine floats
only enter through ordinary arithmetic and comparisons here, so exact
rational arithmetic reflects the algorithmic content.  Fallible Python
code (uncaught exceptions) is embedded with `Except`.
-/
import Mathlib

/- The rational-number operations are shipped `@[irreducible]`; the
embedding evaluates them on concrete inputs (witnesses), so restore the
default reducibility. -/
set_option allowUnsafeReducibility true
attribute [semireducible] Rat.add Rat.mul Rat.sub Rat.inv Rat.ofScientific

namespace PrintNanny

/-! ### Generic list helpers used by the embedding -/

/-- Insert a rational into a strictly-sorted list, skipping duplicates. -/
def insertUniq (x : ℚ) : List ℚ → List ℚ
  | [] => [x]
  | y :: ys =>
      if x < y then x :: y :: ys
      else if x = y then y :: ys
      else y :: insertUniq x ys

/-- Sorted deduplication of a list of rationals (ascending, no duplicates).
This models both a pandas group-by index (group keys are emitted sorted and
distinct) and the index union performed by `Series.add`. -/
def sortedUniq (l : List ℚ) : List ℚ := l.foldr insertUniq []

/-- Running cumulative sums of a list (`pandas.Series.cumsum`). -/
def cumsum (l : List ℚ) : List ℚ :=
  (l.scanl (· + ·) 0).tail

/-- Number of `true` entries of a boolean mask (`numpy.count_nonzero`). -/
def countTrue (mask : List Bool) : ℕ := (mask.filter (fun b => b)).length

/-- Boolean-mask selection (`numpy` fancy indexing `arr[mask]`).  The numpy
operation requires the mask and the array to have equal length; the claims
below always carry that hypothesis. -/
def maskFilter {α : Type} (l : List α) (mask : List Bool) : List α :=
  (l.zip mask).filterMap (fun p => if p.2 then some p.1 else none)

/-! ### Geometry Filter — `metrics/area_of_interest.py` -/

/-- An axis-aligned box `(xmin, ymin, xmax, ymax)` in normalized
coordinates; also used for the calibration (area-of-interest) rectangle,
whose `coordinates` field has the same 4-tuple shape. -/
structure Box where
  x0 : ℚ
  y0 : ℚ
  x1 : ℚ
  y1 : ℚ
deriving DecidableEq

/-- Body of the loop of `calc_percent_intersection` for one detection box:
fractional overlap of `box` with the area-of-interest rectangle `aoi`.
The denominator is the detection box's own area, not the union. -/
def calc_percent_intersection_box (box : Box) (aoi : Box) : ℚ :=
  let x_left := max aoi.x0 box.x0
  let y_top := max aoi.y0 box.y0
  let x_right := min aoi.x1 box.x1
  let y_bottom := min aoi.y1 box.y1
  if x_right < x_left ∨ y_bottom < y_top then 0
  else
    let intersection_area := (x_right - x_left) * (y_bottom - y_top)
    let box_area := (box.x1 - box.x0) * (box.y1 - box.y0)
    if intersection_area / box_area = 1 then 1
    else intersection_area / box_area

/-- `calc_percent_intersection`: one overlap fraction per detection box. -/
def calc_percent_intersection (detection_boxes : List Box) (aoi : Box) :
    List ℚ :=
  detection_boxes.map (fun b => calc_percent_intersection_box b aoi)

/-- The `BoxAnnotations` protobuf message: a detection set. -/
structure BoxAnnotations where
  num_detections : ℕ
  detection_scores : List ℚ
  detection_boxes : List Box
  detection_classes : List ℕ
  health_weights : List ℚ
deriving DecidableEq

/-- Modelled from the spec: `CATEGORY_INDEX` is defined in
`print_nanny_dataflow/coders/types.py`, which is not among the given
sources.  §3 of the spec describes it as a static, process-wide, read-only
mapping from class id to a signed health weight.  It is kept abstract as a
function argument `hw : ℕ → ℚ` wherever the code reads
`CATEGORY_INDEX[i]["health_weight"]`. -/
def categoryHealthWeight (hw : ℕ → ℚ) (classId : ℕ) : ℚ := hw classId

/-- `filter_box_annotations`.  With a calibration supplied the source
evaluates `percent_intersection < min_calibration_area_overlap &
detection_scores > min_score_threshold`; Python gives `&` higher precedence
than the comparisons, so this first evaluates
`min_calibration_area_overlap & detection_scores` — a bitwise `&` between a
`float` and a float `ndarray`, which numpy rejects with `TypeError`
unconditionally.  That path is therefore embedded as an error.  Without a
calibration the keep-mask is `detection_scores > min_score_threshold`. -/
def filter_box_annotations (hw : ℕ → ℚ) (element : BoxAnnotations)
    (calibration : Option Box) (min_calibration_area_overlap : ℚ)
    (min_score_threshold : ℚ) : Except String BoxAnnotations :=
  match calibration with
  | some _ =>
      .error "TypeError: ufunc bitwise_and not supported for float inputs"
  | none =>
      let ignored_mask :=
        element.detection_scores.map (fun s => decide (min_score_threshold < s))
      let filtered_detection_scores :=
        maskFilter element.detection_scores ignored_mask
      let filtered_detection_boxes :=
        maskFilter element.detection_boxes ignored_mask
      let filtered_detection_classes :=
        maskFilter element.detection_classes ignored_mask
      .ok
        { num_detections := countTrue ignored_mask
          detection_scores := filtered_detection_scores
          detection_boxes := filtered_detection_boxes
          detection_classes := filtered_detection_classes
          health_weights :=
            filtered_detection_classes.map (categoryHealthWeight hw) }

/-! ### Health Record Exploder and records — `transforms/health.py` -/

/-- One row of the health DataFrame (`WindowedHealthRecord`).  The session
metadata fields are carried through unmodified by every transform and play
no part in any computation, so they are omitted from the embedding. -/
structure WindowedHealthRecord where
  ts : ℚ
  detection_score : ℚ
  detection_class : ℕ
  health_weight : ℚ
  health_score : ℚ
deriving DecidableEq

/-- `ExplodeWindowedHealthRecord.process`: one record per detection, in
input order, indexing positions `0 .. num_detections-1` of the score and
class arrays (Python raises `IndexError` if those arrays are shorter). -/
def ExplodeWindowedHealthRecord.process (hw : ℕ → ℚ) (ts : ℚ)
    (e : BoxAnnotations) : Except String (List WindowedHealthRecord) :=
  if e.detection_scores.length < e.num_detections ∨
      e.detection_classes.length < e.num_detections then
    .error "IndexError: list index out of range"
  else
    .ok
      (((e.detection_scores.take e.num_detections).zip
          (e.detection_classes.take e.num_detections)).map
        (fun p =>
          { ts := ts
            detection_score := p.1
            detection_class := p.2
            health_weight := categoryHealthWeight hw p.2
            health_score := categoryHealthWeight hw p.2 * p.1 }))

/-! ### Session Trend Aggregator — `transforms/health.py` -/

/-- Insert a record into a list sorted by ascending timestamp. -/
def insertByTs (r : WindowedHealthRecord) :
    List WindowedHealthRecord → List WindowedHealthRecord
  | [] => [r]
  | s :: ss => if r.ts ≤ s.ts then r :: s :: ss else s :: insertByTs r ss

/-- `df.sort_values("ts")`: sort records by ascending timestamp. -/
def sortByTs (l : List WindowedHealthRecord) : List WindowedHealthRecord :=
  l.foldr insertByTs []

/-- Group aggregation over a pandas group: fold the group with `f`
(nonempty groups), `0` for the empty group (the `fill_value=0` of
`Series.add`). -/
def groupAgg (f : ℚ → ℚ → ℚ) : List ℚ → ℚ
  | [] => 0
  | h :: tl => tl.foldl f h

/-- Health scores of the records with positive weight at timestamp `t`
(`df[df["health_weight"] > 0]` grouped at key `t`). -/
def posScoresAt (records : List WindowedHealthRecord) (t : ℚ) : List ℚ :=
  (records.filter
    (fun r => decide (0 < r.health_weight) && decide (r.ts = t))).map
    (fun r => r.health_score)

/-- Health scores of the records with negative weight at timestamp `t`. -/
def negScoresAt (records : List WindowedHealthRecord) (t : ℚ) : List ℚ :=
  (records.filter
    (fun r => decide (r.health_weight < 0) && decide (r.ts = t))).map
    (fun r => r.health_score)

/-- Per-timestamp value of `health_score_trend_polynomial_v1`:
`max` over the positive-weight group plus `min` over the negative-weight
group, each contributing `0` when its group at `t` is empty
(`Series.add(..., fill_value=0)`). -/
def perTsValue (records : List WindowedHealthRecord) (t : ℚ) : ℚ :=
  groupAgg max (posScoresAt records t) + groupAgg min (negScoresAt records t)

/-- The index of the series
`pos.groupby("ts").max().add(neg.groupby("ts").min(), fill_value=0)`:
the sorted distinct union of the timestamps occurring in the
positive-weight group and those occurring in the negative-weight group. -/
def xyIndex (records : List WindowedHealthRecord) : List ℚ :=
  sortedUniq
    (((records.filter (fun r => decide (0 < r.health_weight))).map
        (fun r => r.ts)) ++
      ((records.filter (fun r => decide (r.health_weight < 0))).map
        (fun r => r.ts)))

/-- The cumulative health trajectory (`.cumsum()` of the combined series),
in ascending timestamp order. -/
def healthCumsum (records : List WindowedHealthRecord) : List ℚ :=
  cumsum ((xyIndex records).map (perTsValue records))

/-- The fitted trend object (`numpy.polynomial.polynomial.Polynomial`):
coefficients, fit domain, roots, and the degree reported by
`Polynomial.degree()`. -/
structure PolyTrend where
  coef : List ℚ
  domain : ℚ × ℚ
  roots : List ℚ
  degree : ℕ
deriving DecidableEq

/-- Exact least-squares line `c0 + c1·x` through the points `pts`
(the normal-equation closed form). -/
def lsqLine (pts : List (ℚ × ℚ)) : ℚ × ℚ :=
  let n : ℚ := pts.length
  let sx := (pts.map (fun p => p.1)).sum
  let sy := (pts.map (fun p => p.2)).sum
  let sxx := (pts.map (fun p => p.1 * p.1)).sum
  let sxy := (pts.map (fun p => p.1 * p.2)).sum
  let denom := n * sxx - sx * sx
  let c1 := (n * sxy - sx * sy) / denom
  let c0 := (sy - c1 * sx) / n
  (c0, c1)

/-- `numpy.polynomial.polynomial.Polynomial.fit(xs, ys, degree)`.
With fewer distinct x-values than `degree + 1`, the fit is degenerate: for
the pipeline's only reachable degree (1, hard-coded by
`SortWindowedHealthDataframe.__init__`) all x equal makes the domain map
divide by zero and `lstsq` raises `numpy.linalg.LinAlgError` (which
derives from `Exception`, not from `ValueError`).  Otherwise the ordinary
least-squares line is returned; it
is stored here in original coordinates (numpy stores the same fitted line
over a rescaled `[-1, 1]` window). -/
def Polynomial_fit (xs ys : List ℚ) (degree : ℕ) :
    Except String PolyTrend :=
  if (sortedUniq xs).length < degree + 1 then
    .error "LinAlgError: SVD did not converge"
  else
    let c := lsqLine (xs.zip ys)
    .ok
      { coef := [c.1, c.2]
        domain := (groupAgg min xs, groupAgg max xs)
        roots := if c.2 = 0 then [] else [-c.1 / c.2]
        degree := degree }

/-- `health_score_trend_polynomial_v1(df, degree)`: the per-timestamp
reduction, its cumulative sum, and the polynomial fit over
`(timestamp, cumulative value)` pairs. -/
def health_score_trend_polynomial_v1 (df : List WindowedHealthRecord)
    (degree : ℕ) : Except String (List ℚ × PolyTrend) :=
  let xs := xyIndex df
  let xy := cumsum (xs.map (perTsValue df))
  (Polynomial_fit xs xy degree).map (fun t => (xy, t))

/-- The `NestedWindowedHealthTrend` aggregate (session metadata omitted:
it is copied from the first row and never computed with). -/
structure NestedWindowedHealthTrend where
  print_session : String
  poly_coef : List ℚ
  poly_domain : ℚ × ℚ
  poly_roots : List ℚ
  poly_degree : ℕ
  cumsum : List ℚ
  health_score : List ℚ
  health_weight : List ℚ
  detection_class : List ℕ
  detection_score : List ℚ
deriving DecidableEq

/-- Configuration fields of `SortWindowedHealthDataframe`. -/
structure SortWindowedHealthDataframe where
  warmup : ℕ
  polyfit_degree : ℕ
deriving DecidableEq

/-- `SortWindowedHealthDataframe.__init__(self, warmup=3, polyfit_degree=1)`.
The body assigns `self.polyfit_degree = 1`: the constructor argument is
ignored and the fit degree is hard-coded to 1. -/
def SortWindowedHealthDataframe.init (warmup polyfit_degree : ℕ) :
    SortWindowedHealthDataframe :=
  { warmup := warmup, polyfit_degree := 1 }

/-- `SortWindowedHealthDataframe.process`.  An empty record iterable makes
`pd.DataFrame(data=[]).sort_values("ts")` raise an uncaught `KeyError`
(unreachable behind the runner's group-by-key, which never emits empty
groups).  Below the warm-up count nothing is emitted (`return`, before the
`try` block).  The fit failure is NOT contained: the source's
`except ValueError` clause does not catch `numpy.linalg.LinAlgError`
(it derives from `Exception`, not `ValueError`), so the degenerate-fit
exception escapes the invocation uncaught and is embedded as a
propagating error.  On a successful fit one keyed trend is emitted. -/
def SortWindowedHealthDataframe.process (cfg : SortWindowedHealthDataframe)
    (key : String) (records : List WindowedHealthRecord) :
    Except String (List (String × NestedWindowedHealthTrend)) :=
  match records with
  | [] => .error "KeyError: ts"
  | _ :: _ =>
    let df := sortByTs records
    if df.length < cfg.warmup then .ok []
    else
      match health_score_trend_polynomial_v1 df cfg.polyfit_degree with
      | .error e => .error e
      | .ok (cs, trend) =>
          .ok
            [(key,
              { print_session := key
                poly_coef := trend.coef
                poly_domain := trend.domain
                poly_roots := trend.roots
                poly_degree := trend.degree
                cumsum := cs
                health_score := df.map (fun r => r.health_score)
                health_weight := df.map (fun r => r.health_weight)
                detection_class := df.map (fun r => r.detection_class)
                detection_score := df.map (fun r => r.detection_score) })]

/-- `n` accumulating-pane firings redelivering the same record set to the
same `SortWindowedHealthDataframe` instance. -/
def runPanes (cfg : SortWindowedHealthDataframe) (key : String)
    (records : List WindowedHealthRecord) (n : ℕ) :
    List (Except String (List (String × NestedWindowedHealthTrend))) :=
  (List.range n).map (fun _ => cfg.process key records)

/-! ### Spec-side aggregation (refinement comparison for the trajectory)

These definitions follow the words of §4.4 of the spec, to be compared
with the source-derived `healthCumsum` above: group by **every** distinct
timestamp; per-timestamp value is the max over positive-weight records
(0 if none) plus the min over negative-weight records (0 if none);
the trajectory is the running cumulative sum in ascending timestamp
order. -/

namespace SpecSide

/-- Spec §4.4 step 3, positive part at a timestamp. -/
def positivePart (records : List WindowedHealthRecord) (t : ℚ) : ℚ :=
  ((records.filter
      (fun r => decide (0 < r.health_weight) && decide (r.ts = t))).map
    (fun r => r.health_score)).max?.getD 0

/-- Spec §4.4 step 3, negative part at a timestamp. -/
def negativePart (records : List WindowedHealthRecord) (t : ℚ) : ℚ :=
  ((records.filter
      (fun r => decide (r.health_weight < 0) && decide (r.ts = t))).map
    (fun r => r.health_score)).min?.getD 0

/-- Spec §4.4 step 3, per-timestamp value. -/
def perTimestampValue (records : List WindowedHealthRecord) (t : ℚ) : ℚ :=
  positivePart records t + negativePart records t

/-- All distinct timestamps of the record set, ascending. -/
def allTimestamps (records : List WindowedHealthRecord) : List ℚ :=
  sortedUniq (records.map (fun r => r.ts))

/-- Spec §4.4 step 4, the health trajectory. -/
def healthTrajectory (records : List WindowedHealthRecord) : List ℚ :=
  cumsum ((allTimestamps records).map (perTimestampValue records))

end SpecSide

/-! ### Render Trigger Builder — `CreateVideoRenderMessage` -/

/-- The `Metadata` record copied from the first element of the batch. -/
structure Metadata where
  client_version : String
  print_session : String
  user_id : ℕ
  octoprint_device_id : ℕ
  cloudiot_device_id : ℕ
deriving DecidableEq

/-- Fields of `NestedTelemetryEvent` read by `CreateVideoRenderMessage`. -/
structure NestedTelemetryEvent where
  client_version : String
  print_session : String
  user_id : ℕ
  octoprint_device_id : ℕ
  cloudiot_device_id : ℕ
deriving DecidableEq

/-- `AlertEventTypeEnum.video_done`. -/
inductive AlertEventType where
  | video_done
deriving DecidableEq

/-- The outbound `RenderVideoMessage`. -/
structure RenderVideoMessage where
  print_session : String
  metadata : Metadata
  event_type : AlertEventType
  gcs_input : String
  gcs_output : String
  cdn_output : String
  cdn_relative : String
  bucket : String
deriving DecidableEq

/-- `os.path.join` for components without leading separators, the only
form occurring in `CreateVideoRenderMessage.process`. -/
def pathJoin (a b : String) : String := a ++ "/" ++ b

/-- Configuration fields of `CreateVideoRenderMessage`. -/
structure CreateVideoRenderMessage where
  in_base_path : String
  out_base_path : String
  cdn_base_path : String
  cdn_upload_path : String
  bucket : String
deriving DecidableEq

/-- `CreateVideoRenderMessage.process`.  `datestamp` stands for the
`datetime.now()` date string; `paneIsLast` is `pane_info.is_last`, which
the source only logs — the message is built and yielded on every
invocation, terminal pane or not.  `values[0]` raises `IndexError` on an
empty batch. -/
def CreateVideoRenderMessage.process (cfg : CreateVideoRenderMessage)
    (key : String) (values : List NestedTelemetryEvent) (datestamp : String)
    (paneIsLast : Bool) : Except String (List RenderVideoMessage) :=
  match values with
  | [] => .error "IndexError: list index out of range"
  | v :: _ =>
      let gcs_input := pathJoin cfg.in_base_path key
      let gcs_output :=
        pathJoin (pathJoin cfg.out_base_path key) "annotated_video.mp4"
      let suffix := pathJoin (pathJoin key datestamp) "annotated_video.mp4"
      let cdn_output :=
        pathJoin (pathJoin cfg.cdn_base_path cfg.cdn_upload_path) suffix
      let cdn_relative := pathJoin cfg.cdn_upload_path suffix
      .ok
        [{ print_session := key
           metadata :=
             { client_version := v.client_version
               print_session := v.print_session
               user_id := v.user_id
               octoprint_device_id := v.octoprint_device_id
               cloudiot_device_id := v.cloudiot_device_id }
           event_type := .video_done
           gcs_input := gcs_input
           gcs_output := gcs_output
           cdn_output := cdn_output
           cdn_relative := cdn_relative
           bucket := cfg.bucket }]

/-! ### Stateful Session Monitor — `MonitorHealthStateful` -/

/-- Configuration fields of `MonitorHealthStateful` (none of them is read
by `process`). -/
structure MonitorHealthStateful where
  pubsub_topic : String
  failure_threshold : ℕ
  quiet : Bool
deriving DecidableEq

/-- `MonitorHealthStateful.process` for one key: read the combining
`failures` state, `failures.add(1)`, and pass the keyed batch through
unchanged.  Returns the new state value and the yielded element. -/
def MonitorHealthStateful.process (cfg : MonitorHealthStateful)
    (failures : ℕ) (key : String)
    (values : List NestedWindowedHealthTrend) :
    ℕ × (String × List NestedWindowedHealthTrend) :=
  (failures + 1, (key, values))

/-- The keyed state store holding one `failures` cell per session key:
one window-firing for `key` increments that key's cell. -/
def monitorStep (cfg : MonitorHealthStateful) (s : String → ℕ)
    (key : String) : String → ℕ :=
  fun k =>
    if k = key then (cfg.process (s k) key []).1
    else s k

/-- The state store after a sequence of window-firings (one key each). -/
def monitorRun (cfg : MonitorHealthStateful) (s : String → ℕ) :
    List String → String → ℕ
  | [] => s
  | k :: ks => monitorRun cfg (monitorStep cfg s k) ks

/-! ### Concrete example values (used by witnesses and counterexamples) -/

/-- Example health-weight table: class 5 is a negative indicator, every
other class a positive one (matching the spec's signed-weight shape). -/
def exHW : ℕ → ℚ := fun c => if c = 5 then -1 else 1

/-- A detection box fully contained in the example area of interest. -/
def exBox : Box := ⟨1/4, 1/4, 1/2, 1/2⟩

/-- Example area-of-interest rectangle (the whole frame). -/
def exAoi : Box := ⟨0, 0, 1, 1⟩

/-- The spec's end-to-end detection set: scores `[0.9, 0.8, 0.3]`,
classes mapping to weights `[+1, -1, +1]`. -/
def exElement : BoxAnnotations :=
  { num_detections := 3
    detection_scores := [9/10, 8/10, 3/10]
    detection_boxes := [exBox, exBox, exBox]
    detection_classes := [4, 5, 4]
    health_weights := [1, -1, 1] }

/-- What the score-threshold filter keeps of `exElement` at threshold
`0.66`: the `0.3` detection is dropped. -/
def exFilteredElement : BoxAnnotations :=
  { num_detections := 2
    detection_scores := [9/10, 8/10]
    detection_boxes := [exBox, exBox]
    detection_classes := [4, 5]
    health_weights := [1, -1] }

/-- Record: ts 1, score 0.9, weight +1, health score 0.9. -/
def exRecord1 : WindowedHealthRecord := ⟨1, 9/10, 4, 1, 9/10⟩

/-- Record: ts 1, score 0.8, weight -1, health score -0.8. -/
def exRecord2 : WindowedHealthRecord := ⟨1, 8/10, 5, -1, -8/10⟩

/-- Record: ts 2, score 0.7, weight +1, health score 0.7. -/
def exRecord3 : WindowedHealthRecord := ⟨2, 7/10, 4, 1, 7/10⟩

/-- A three-record window with two distinct timestamps. -/
def exRecords : List WindowedHealthRecord := [exRecord1, exRecord2, exRecord3]

/-- A three-record window whose records all share one timestamp, making a
degree-1 fit degenerate (one distinct x-value). -/
def exRecordsSameTs : List WindowedHealthRecord :=
  [exRecord1, exRecord2, ⟨1, 1/2, 4, 1, 1/2⟩]

/-- Example `MonitorHealthStateful` configuration. -/
def exMonitor : MonitorHealthStateful := ⟨"projects/x/topics/render", 2, true⟩

/-- Example keyed state store: every counter at 0. -/
def exState : String → ℕ := fun _ => 0

/-- Example `CreateVideoRenderMessage` configuration. -/
def exRenderCfg : CreateVideoRenderMessage :=
  ⟨"gs://in", "gs://out", "https://cdn", "uploads", "bucket"⟩

/-- Example telemetry event feeding the render-trigger builder. -/
def exEvent : NestedTelemetryEvent := ⟨"1.0", "session1", 7, 11, 13⟩

/-- The degrees carried by the trends of one `process` emission. -/
def emittedDegrees
    (r : Except String (List (String × NestedWindowedHealthTrend))) :
    Except String (List ℕ) :=
  r.map (fun l => l.map (fun p => p.2.poly_degree))

/-! ### Helper lemmas -/

theorem sortedUniq_cons (x : ℚ) (l : List ℚ) :
    sortedUniq (x :: l) = insertUniq x (sortedUniq l) := rfl

theorem mem_insertUniq {a x : ℚ} {l : List ℚ} :
    a ∈ insertUniq x l ↔ a = x ∨ a ∈ l := by
  induction l with
  | nil => simp [insertUniq]
  | cons y ys ih =>
      by_cases h1 : x < y
      · simp [insertUniq, h1]
      · by_cases h2 : x = y
        · subst h2
          have e : insertUniq x (x :: ys) = x :: ys := by
            simp [insertUniq, h1]
          rw [e, List.mem_cons]
          tauto
        · simp only [insertUniq, if_neg h1, if_neg h2, List.mem_cons, ih]
          tauto

theorem sorted_insertUniq {x : ℚ} {l : List ℚ}
    (h : l.Sorted (· < ·)) : (insertUniq x l).Sorted (· < ·) := by
  induction l with
  | nil => simp [insertUniq]
  | cons y ys ih =>
      rw [List.sorted_cons] at h
      obtain ⟨hy, hys⟩ := h
      by_cases h1 : x < y
      · simp only [insertUniq, if_pos h1]
        rw [List.sorted_cons]
        refine ⟨?_, ?_⟩
        · intro b hb
          rcases List.mem_cons.mp hb with rfl | hb
          · exact h1
          · exact h1.trans (hy b hb)
        · rw [List.sorted_cons]
          exact ⟨hy, hys⟩
      · by_cases h2 : x = y
        · simp only [insertUniq, if_neg h1, if_pos h2]
          rw [List.sorted_cons]
          exact ⟨hy, hys⟩
        · simp only [insertUniq, if_neg h1, if_neg h2]
          rw [List.sorted_cons]
          refine ⟨?_, ih hys⟩
          intro b hb
          rcases mem_insertUniq.mp hb with rfl | hb
          · exact lt_of_le_of_ne (not_lt.mp h1) (Ne.symm h2)
          · exact hy b hb

theorem sorted_sortedUniq (l : List ℚ) : (sortedUniq l).Sorted (· < ·) := by
  induction l with
  | nil => simp [sortedUniq]
  | cons x xs ih =>
      rw [sortedUniq_cons]
      exact sorted_insertUniq ih

theorem mem_sortedUniq {a : ℚ} {l : List ℚ} :
    a ∈ sortedUniq l ↔ a ∈ l := by
  induction l with
  | nil => simp [sortedUniq]
  | cons x xs ih =>
      rw [sortedUniq_cons, mem_insertUniq, ih, List.mem_cons]

instance : IsAntisymm ℚ (· < ·) :=
  ⟨fun _ _ h h' => absurd h (asymm h')⟩

theorem sortedUniq_eq_of_mem_iff {l₁ l₂ : List ℚ}
    (h : ∀ a, a ∈ l₁ ↔ a ∈ l₂) : sortedUniq l₁ = sortedUniq l₂ := by
  apply List.eq_of_perm_of_sorted _ (sorted_sortedUniq l₁) (sorted_sortedUniq l₂)
  apply (List.perm_ext_iff_of_nodup (sorted_sortedUniq l₁).nodup
    (sorted_sortedUniq l₂).nodup).mpr
  intro a
  rw [mem_sortedUniq, mem_sortedUniq]
  exact h a

theorem sortedUniq_idem (l : List ℚ) :
    sortedUniq (sortedUniq l) = sortedUniq l := by
  have h := sortedUniq_eq_of_mem_iff (fun a => (mem_sortedUniq (a := a) (l := l)))
  exact h

theorem sortedUniq_xyIndex (l : List WindowedHealthRecord) :
    sortedUniq (xyIndex l) = xyIndex l := by
  unfold xyIndex
  rw [sortedUniq_idem]

theorem groupAgg_max (l : List ℚ) : groupAgg max l = l.max?.getD 0 := by
  cases l <;> rfl

theorem groupAgg_min (l : List ℚ) : groupAgg min l = l.min?.getD 0 := by
  cases l <;> rfl

theorem insertByTs_length (r : WindowedHealthRecord)
    (l : List WindowedHealthRecord) :
    (insertByTs r l).length = l.length + 1 := by
  induction l with
  | nil => rfl
  | cons s ss ih =>
      by_cases h : r.ts ≤ s.ts
      · simp [insertByTs, h]
      · simp [insertByTs, h, ih]

theorem sortByTs_length (l : List WindowedHealthRecord) :
    (sortByTs l).length = l.length := by
  induction l with
  | nil => rfl
  | cons r rs ih =>
      show (insertByTs r (sortByTs rs)).length = rs.length + 1
      rw [insertByTs_length, ih]

theorem maskFilter_cons {α : Type} (a : α) (as : List α) (b : Bool)
    (bs : List Bool) :
    maskFilter (a :: as) (b :: bs) =
      if b then a :: maskFilter as bs else maskFilter as bs := by
  cases b <;> simp [maskFilter]

theorem maskFilter_length {α : Type} (l : List α) (mask : List Bool)
    (h : l.length = mask.length) :
    (maskFilter l mask).length = countTrue mask := by
  induction l generalizing mask with
  | nil =>
      cases mask with
      | nil => rfl
      | cons b bs => simp at h
  | cons a as ih =>
      cases mask with
      | nil => simp at h
      | cons b bs =>
          simp only [List.length_cons, Nat.add_right_cancel_iff] at h
          rw [maskFilter_cons]
          cases b
          · simpa [countTrue] using ih bs h
          · simpa [countTrue] using ih bs h

theorem perTsValue_eq_spec (records : List WindowedHealthRecord) (t : ℚ) :
    perTsValue records t = SpecSide.perTimestampValue records t := by
  unfold perTsValue SpecSide.perTimestampValue SpecSide.positivePart
    SpecSide.negativePart
  rw [groupAgg_max, groupAgg_min]
  rfl

/-! ### Claim theorems -/

/-- C1 (code bug): the claim's calibrated retention rule
(`keep = score > scoreThreshold AND fractionalOverlap ≥ minOverlap`) is
what §4.2 states as the contract, but `filter_box_annotations` cannot
realize it: whenever a calibration is supplied, the mask expression
applies the bitwise `&` to a `float` and a float array before any
comparison (Python operator precedence), so the call raises `TypeError`.
Evaluated here at a detection of score `0.9 > 0.66` lying fully inside the
calibration rectangle with overlap `1 ≥ 0.75`, which the claim says must
be kept. -/
theorem C1_calibrated_filter_raises :
    filter_box_annotations exHW exElement (some exAoi) (3/4) (66/100) =
      .error "TypeError: ufunc bitwise_and not supported for float inputs" :=
  rfl

/-- C3: for a non-degenerate detection box, `calc_percent_intersection_box`
returns a value in `[0, 1]`; it returns `0` exactly under the source's
disjointness test (`x_right < x_left ∨ y_bottom < y_top`), `1` for a box
fully contained in the AOI rectangle, and otherwise the intersection area
divided by the detection box's own area. -/
theorem C3_geometry_filter (box aoi : Box)
    (hx : box.x0 < box.x1) (hy : box.y0 < box.y1) :
    (0 ≤ calc_percent_intersection_box box aoi ∧
      calc_percent_intersection_box box aoi ≤ 1) ∧
    ((min aoi.x1 box.x1 < max aoi.x0 box.x0 ∨
        min aoi.y1 box.y1 < max aoi.y0 box.y0) →
      calc_percent_intersection_box box aoi = 0) ∧
    ((aoi.x0 ≤ box.x0 ∧ aoi.y0 ≤ box.y0 ∧ box.x1 ≤ aoi.x1 ∧
        box.y1 ≤ aoi.y1) →
      calc_percent_intersection_box box aoi = 1) ∧
    (¬(min aoi.x1 box.x1 < max aoi.x0 box.x0 ∨
        min aoi.y1 box.y1 < max aoi.y0 box.y0) →
      calc_percent_intersection_box box aoi =
        ((min aoi.x1 box.x1 - max aoi.x0 box.x0) *
            (min aoi.y1 box.y1 - max aoi.y0 box.y0)) /
          ((box.x1 - box.x0) * (box.y1 - box.y0))) := by
  have harea : 0 < (box.x1 - box.x0) * (box.y1 - box.y0) :=
    mul_pos (sub_pos.mpr hx) (sub_pos.mpr hy)
  have hrepr : calc_percent_intersection_box box aoi =
      if min aoi.x1 box.x1 < max aoi.x0 box.x0 ∨
          min aoi.y1 box.y1 < max aoi.y0 box.y0 then 0
      else
        if ((min aoi.x1 box.x1 - max aoi.x0 box.x0) *
              (min aoi.y1 box.y1 - max aoi.y0 box.y0)) /
            ((box.x1 - box.x0) * (box.y1 - box.y0)) = 1 then 1
        else ((min aoi.x1 box.x1 - max aoi.x0 box.x0) *
              (min aoi.y1 box.y1 - max aoi.y0 box.y0)) /
            ((box.x1 - box.x0) * (box.y1 - box.y0)) := rfl
  have hratio : ∀ _ : ¬(min aoi.x1 box.x1 < max aoi.x0 box.x0 ∨
      min aoi.y1 box.y1 < max aoi.y0 box.y0),
      0 ≤ ((min aoi.x1 box.x1 - max aoi.x0 box.x0) *
            (min aoi.y1 box.y1 - max aoi.y0 box.y0)) /
          ((box.x1 - box.x0) * (box.y1 - box.y0)) ∧
      ((min aoi.x1 box.x1 - max aoi.x0 box.x0) *
            (min aoi.y1 box.y1 - max aoi.y0 box.y0)) /
          ((box.x1 - box.x0) * (box.y1 - box.y0)) ≤ 1 := by
    intro hnd
    push_neg at hnd
    obtain ⟨h1, h2⟩ := hnd
    have hw : min aoi.x1 box.x1 - max aoi.x0 box.x0 ≤ box.x1 - box.x0 :=
      sub_le_sub (min_le_right _ _) (le_max_right _ _)
    have hh : min aoi.y1 box.y1 - max aoi.y0 box.y0 ≤ box.y1 - box.y0 :=
      sub_le_sub (min_le_right _ _) (le_max_right _ _)
    have hwn : 0 ≤ min aoi.x1 box.x1 - max aoi.x0 box.x0 := sub_nonneg.mpr h1
    have hhn : 0 ≤ min aoi.y1 box.y1 - max aoi.y0 box.y0 := sub_nonneg.mpr h2
    have hprod : (min aoi.x1 box.x1 - max aoi.x0 box.x0) *
        (min aoi.y1 box.y1 - max aoi.y0 box.y0) ≤
        (box.x1 - box.x0) * (box.y1 - box.y0) :=
      mul_le_mul hw hh hhn (sub_pos.mpr hx).le
    exact ⟨div_nonneg (mul_nonneg hwn hhn) harea.le,
      (div_le_one harea).mpr hprod⟩
  refine ⟨?_, ?_, ?_, ?_⟩
  · rw [hrepr]
    by_cases hd : min aoi.x1 box.x1 < max aoi.x0 box.x0 ∨
        min aoi.y1 box.y1 < max aoi.y0 box.y0
    · rw [if_pos hd]
      norm_num
    · rw [if_neg hd]
      obtain ⟨hge, hle⟩ := hratio hd
      by_cases hr : ((min aoi.x1 box.x1 - max aoi.x0 box.x0) *
            (min aoi.y1 box.y1 - max aoi.y0 box.y0)) /
          ((box.x1 - box.x0) * (box.y1 - box.y0)) = 1
      · rw [if_pos hr]
        norm_num
      · rw [if_neg hr]
        exact ⟨hge, hle⟩
  · intro hd
    rw [hrepr, if_pos hd]
  · rintro ⟨h1, h2, h3, h4⟩
    have e1 : max aoi.x0 box.x0 = box.x0 := max_eq_right h1
    have e2 : max aoi.y0 box.y0 = box.y0 := max_eq_right h2
    have e3 : min aoi.x1 box.x1 = box.x1 := min_eq_right h3
    have e4 : min aoi.y1 box.y1 = box.y1 := min_eq_right h4
    rw [hrepr, e1, e2, e3, e4]
    rw [if_neg (by push_neg; exact ⟨hx.le, hy.le⟩)]
    rw [if_pos (div_self harea.ne')]
  · intro hd
    rw [hrepr, if_neg hd]
    by_cases hr : ((min aoi.x1 box.x1 - max aoi.x0 box.x0) *
          (min aoi.y1 box.y1 - max aoi.y0 box.y0)) /
        ((box.x1 - box.x0) * (box.y1 - box.y0)) = 1
    · rw [if_pos hr]
      exact hr.symm
    · rw [if_neg hr]

/-- Witness for C3 at the concrete contained box `exBox` inside `exAoi`. -/
theorem C3_geometry_filter_witness :
    ((0 ≤ calc_percent_intersection_box exBox exAoi ∧
      calc_percent_intersection_box exBox exAoi ≤ 1) ∧
    ((min exAoi.x1 exBox.x1 < max exAoi.x0 exBox.x0 ∨
        min exAoi.y1 exBox.y1 < max exAoi.y0 exBox.y0) →
      calc_percent_intersection_box exBox exAoi = 0) ∧
    ((exAoi.x0 ≤ exBox.x0 ∧ exAoi.y0 ≤ exBox.y0 ∧ exBox.x1 ≤ exAoi.x1 ∧
        exBox.y1 ≤ exAoi.y1) →
      calc_percent_intersection_box exBox exAoi = 1) ∧
    (¬(min exAoi.x1 exBox.x1 < max exAoi.x0 exBox.x0 ∨
        min exAoi.y1 exBox.y1 < max exAoi.y0 exBox.y0) →
      calc_percent_intersection_box exBox exAoi =
        ((min exAoi.x1 exBox.x1 - max exAoi.x0 exBox.x0) *
            (min exAoi.y1 exBox.y1 - max exAoi.y0 exBox.y0)) /
          ((exBox.x1 - exBox.x0) * (exBox.y1 - exBox.y0)))) :=
  C3_geometry_filter exBox exAoi (by decide) (by decide)

/-- C10: whenever the detection filter returns a detection set (its score,
box and class inputs having equal lengths), the output's `num_detections`
is the number of kept detections and all four output arrays carry exactly
`num_detections` entries — the indexing invariant the Health Record
Exploder relies on. -/
theorem C10_filter_output_lengths (hw : ℕ → ℚ) (element : BoxAnnotations)
    (calibration : Option Box) (minOverlap thr : ℚ)
    (hb : element.detection_boxes.length = element.detection_scores.length)
    (hc : element.detection_classes.length = element.detection_scores.length)
    (ann : BoxAnnotations)
    (hok : filter_box_annotations hw element calibration minOverlap thr =
      .ok ann) :
    ann.detection_scores.length = ann.num_detections ∧
    ann.detection_boxes.length = ann.num_detections ∧
    ann.detection_classes.length = ann.num_detections ∧
    ann.health_weights.length = ann.num_detections := by
  cases calibration with
  | some c => simp [filter_box_annotations] at hok
  | none =>
      simp only [filter_box_annotations, Except.ok.injEq] at hok
      subst hok
      have hm : (element.detection_scores.map
          (fun s => decide (thr < s))).length =
          element.detection_scores.length := List.length_map _ _
      refine ⟨?_, ?_, ?_, ?_⟩
      · exact maskFilter_length _ _ hm.symm
      · exact maskFilter_length _ _ (hb.trans hm.symm)
      · exact maskFilter_length _ _ (hc.trans hm.symm)
      · rw [List.length_map]
        exact maskFilter_length _ _ (hc.trans hm.symm)

/-- Witness for C10 at the spec's end-to-end detection set without
calibration and threshold `0.66`. -/
theorem C10_filter_output_lengths_witness :
    exFilteredElement.detection_scores.length =
      exFilteredElement.num_detections ∧
    exFilteredElement.detection_boxes.length =
      exFilteredElement.num_detections ∧
    exFilteredElement.detection_classes.length =
      exFilteredElement.num_detections ∧
    exFilteredElement.health_weights.length =
      exFilteredElement.num_detections :=
  C10_filter_output_lengths exHW exElement none (3/4) (66/100)
    (by decide) (by decide) exFilteredElement (by rfl)

/-- C2: for a window whose records all carry a signed (nonzero) health
weight — the shape the HealthWeight table produces — and at least
warm-up-many records, the source's grouped reduction and cumulative sum
coincide with the spec's description: group by every distinct timestamp,
per-timestamp value = (max health score over weight>0 records, 0 if none)
+ (min health score over weight<0 records, 0 if none), trajectory = the
running cumulative sum in ascending timestamp order.  Moreover the claim's
example holds: records with health scores 0.9 (weight +1) and -0.8
(weight -1) at one timestamp give per-timestamp value 0.1. -/
theorem C2_trend_aggregation (records : List WindowedHealthRecord)
    (hwz : ∀ r ∈ records, r.health_weight ≠ 0)
    (hn : 3 ≤ records.length) :
    healthCumsum records = SpecSide.healthTrajectory records ∧
    perTsValue [exRecord1, exRecord2] 1 = 1/10 := by
  constructor
  · have hidx : xyIndex records = SpecSide.allTimestamps records := by
      unfold xyIndex SpecSide.allTimestamps
      apply sortedUniq_eq_of_mem_iff
      intro a
      simp only [List.mem_append, List.mem_map, List.mem_filter,
        decide_eq_true_eq]
      constructor
      · rintro (⟨r, ⟨hr, _⟩, rfl⟩ | ⟨r, ⟨hr, _⟩, rfl⟩) <;> exact ⟨r, hr, rfl⟩
      · rintro ⟨r, hr, rfl⟩
        rcases lt_or_gt_of_ne (hwz r hr) with hneg | hpos
        · right
          exact ⟨r, ⟨hr, hneg⟩, rfl⟩
        · left
          exact ⟨r, ⟨hr, hpos⟩, rfl⟩
    unfold healthCumsum SpecSide.healthTrajectory
    rw [hidx]
    congr 1
    exact List.map_congr_left (fun t _ => perTsValue_eq_spec records t)
  · decide

/-- Witness for C2 at the example window (weights +1, -1, +1). -/
theorem C2_trend_aggregation_witness :
    healthCumsum exRecords = SpecSide.healthTrajectory exRecords ∧
    perTsValue [exRecord1, exRecord2] 1 = 1/10 :=
  C2_trend_aggregation exRecords (by decide) (by decide)

/-- C4: a nonempty window with fewer records than the warm-up threshold
produces no `HealthTrend` and the skip is a normal outcome (the
invocation returns without error); conversely an emission implies the
record count reached the warm-up minimum. -/
theorem C4_warmup_gate (cfg : SortWindowedHealthDataframe) (key : String)
    (records : List WindowedHealthRecord) :
    (records ≠ [] → records.length < cfg.warmup →
      cfg.process key records = .ok []) ∧
    (∀ out, cfg.process key records = .ok out → out ≠ [] →
      cfg.warmup ≤ records.length) := by
  constructor
  · intro hne hlt
    match records, hne with
    | r :: rs, _ =>
        simp only [SortWindowedHealthDataframe.process]
        rw [if_pos (by rw [sortByTs_length]; exact hlt)]
  · intro out hok hne
    match records, hok with
    | [], hok => simp [SortWindowedHealthDataframe.process] at hok
    | r :: rs, hok =>
        by_cases hlt : (sortByTs (r :: rs)).length < cfg.warmup
        · simp only [SortWindowedHealthDataframe.process] at hok
          rw [if_pos hlt] at hok
          injection hok with h
          exact absurd h.symm hne
        · rw [sortByTs_length] at hlt
          omega

/-- Witness for C4: one record with warm-up 3 yields no emission. -/
theorem C4_warmup_gate_witness :
    (SortWindowedHealthDataframe.init 3 1).process "s" [exRecord1] =
      .ok [] :=
  (C4_warmup_gate (SortWindowedHealthDataframe.init 3 1) "s"
    [exRecord1]).1 (by simp) (by decide)

/-- C5 (code bug): the claim requires a `RenderTriggerMessage` only on the
terminal pane, but `CreateVideoRenderMessage.process` only logs
`pane_info.is_last` and emits its one message on every invocation:
evaluated on a non-terminal pane (`is_last = false`) it still emits
exactly one message, and on the terminal pane likewise. -/
theorem C5_unconditional_emission :
    (CreateVideoRenderMessage.process exRenderCfg "session1" [exEvent]
        "2021/08/01" false).map List.length = .ok 1 ∧
    (CreateVideoRenderMessage.process exRenderCfg "session1" [exEvent]
        "2021/08/01" true).map List.length = .ok 1 :=
  ⟨rfl, rfl⟩

/-- C6 (code bug): the claim says the aggregator fits a polynomial of the
configured degree, but `__init__` assigns `self.polyfit_degree = 1`,
discarding the argument: configured with degree 2, the instance still
carries degree 1 and the emitted trend reports degree 1. -/
theorem C6_degree_hardcoded :
    (SortWindowedHealthDataframe.init 3 2).polyfit_degree = 1 ∧
    emittedDegrees
        ((SortWindowedHealthDataframe.init 3 2).process "s" exRecords) =
      .ok [1] :=
  ⟨rfl, rfl⟩

/-- C7 (code bug): the claim (and the spec's error-handling design)
requires a degenerate fit to be logged and contained — emit nothing,
never propagate.  The source's `try` clearly intends that, but it catches
only `ValueError`, and the degenerate-fit exception is
`numpy.linalg.LinAlgError`, a subclass of `Exception`, not of
`ValueError`: a window that passes warm-up with fewer distinct x-values
than degree + 1 makes the failure escape the per-window invocation
uncaught. -/
theorem C7_fit_failure_propagates (cfg : SortWindowedHealthDataframe)
    (key : String) (records : List WindowedHealthRecord)
    (hne : records ≠ [])
    (hwarm : cfg.warmup ≤ records.length)
    (hdeg : (xyIndex (sortByTs records)).length < cfg.polyfit_degree + 1) :
    cfg.process key records = .error "LinAlgError: SVD did not converge" := by
  match records, hne with
  | r :: rs, _ =>
    have hfit : health_score_trend_polynomial_v1 (sortByTs (r :: rs))
        cfg.polyfit_degree = .error "LinAlgError: SVD did not converge" := by
      simp only [health_score_trend_polynomial_v1, Polynomial_fit]
      rw [sortedUniq_xyIndex, if_pos hdeg]
      rfl
    have hwarm' : ¬ (sortByTs (r :: rs)).length < cfg.warmup := by
      rw [sortByTs_length]
      omega
    simp only [SortWindowedHealthDataframe.process]
    rw [if_neg hwarm', hfit]

/-- Witness for C7: three same-timestamp records pass warm-up 3 but give a
single distinct x-value; the degree-1 fit degenerates and the failure
propagates out of the invocation instead of being contained. -/
theorem C7_fit_failure_propagates_witness :
    (SortWindowedHealthDataframe.init 3 1).process "s" exRecordsSameTs =
      .error "LinAlgError: SVD did not converge" :=
  C7_fit_failure_propagates (SortWindowedHealthDataframe.init 3 1) "s"
    exRecordsSameTs (by simp [exRecordsSameTs]) (by decide) (by decide)

/-- C8: each window-firing for a session key increments exactly that
key's durable counter by 1 (read, add one, persist), counters are
monotonically non-decreasing over any firing sequence, firings for one key
never change another key's counter, and the keyed batch passes through
unchanged. -/
theorem C8_stateful_counter (cfg : MonitorHealthStateful) :
    (∀ (s : String → ℕ) (k : String), monitorStep cfg s k k = s k + 1) ∧
    (∀ (s : String → ℕ) (k k' : String), k' ≠ k →
      monitorStep cfg s k k' = s k') ∧
    (∀ (s : String → ℕ) (ks : List String) (k : String),
      s k ≤ monitorRun cfg s ks k) ∧
    (∀ (failures : ℕ) (key : String)
        (values : List NestedWindowedHealthTrend),
      cfg.process failures key values = (failures + 1, (key, values))) := by
  refine ⟨?_, ?_, ?_, ?_⟩
  · intro s k
    simp [monitorStep, MonitorHealthStateful.process]
  · intro s k k' h
    simp [monitorStep, h]
  · intro s ks
    induction ks generalizing s with
    | nil => intro k; exact le_refl _
    | cons k0 ks ih =>
        intro k
        have hstep : s k ≤ monitorStep cfg s k0 k := by
          unfold monitorStep
          by_cases h : k = k0 <;> simp [h, MonitorHealthStateful.process]
        exact hstep.trans (ih (monitorStep cfg s k0) k)
  · intro failures key values
    rfl

/-- Witness for C8 on concrete keys and a three-firing sequence. -/
theorem C8_stateful_counter_witness :
    monitorStep exMonitor exState "sessionA" "sessionA" =
      exState "sessionA" + 1 ∧
    monitorStep exMonitor exState "sessionA" "sessionB" =
      exState "sessionB" ∧
    exState "sessionA" ≤
      monitorRun exMonitor exState ["sessionA", "sessionB", "sessionA"]
        "sessionA" ∧
    exMonitor.process 0 "sessionA" [] = (1, ("sessionA", [])) :=
  ⟨(C8_stateful_counter exMonitor).1 exState "sessionA",
   (C8_stateful_counter exMonitor).2.1 exState "sessionA" "sessionB"
     (by decide),
   (C8_stateful_counter exMonitor).2.2.1 exState
     ["sessionA", "sessionB", "sessionA"] "sessionA",
   (C8_stateful_counter exMonitor).2.2.2 0 "sessionA" []⟩

/-- C9: repeated accumulating-pane firings that redeliver the identical
record set to the same aggregator instance produce identical output every
time — the aggregation reads no per-firing state. -/
theorem C9_pane_idempotence (cfg : SortWindowedHealthDataframe)
    (key : String) (records : List WindowedHealthRecord) (n i j : ℕ)
    (hi : i < n) (hj : j < n) :
    (runPanes cfg key records n)[i]? = (runPanes cfg key records n)[j]? := by
  simp [runPanes, List.getElem?_range, hi, hj]

/-- Witness for C9: two firings of the example window give equal output. -/
theorem C9_pane_idempotence_witness :
    (runPanes (SortWindowedHealthDataframe.init 3 1) "s" exRecords 2)[0]? =
      (runPanes (SortWindowedHealthDataframe.init 3 1) "s" exRecords 2)[1]? :=
  C9_pane_idempotence (SortWindowedHealthDataframe.init 3 1) "s" exRecords
    2 0 1 (by decide) (by decide)

end PrintNanny
